import Mathlib

/-
Verification of the gonads library (packages `option` and `result`): a shallow
embedding of the two generic container types, their constructors, accessors,
JSON codec hooks and transformation combinators, followed by theorems settling
the specification claims.

Modelling conventions for Go semantics:
* Panics are made explicit: an operation that can panic returns `PanicOr α`.
* `reflect.TypeOf(v) == nil` is captured by the `GoType` class: each Lean type
  standing for a Go type carries its zero value and the predicate telling
  whether a value is an interface value with no dynamic type. For non-interface
  Go types (numbers, strings, booleans, pointers) the predicate is constantly
  false; for interface types it holds exactly on the untyped-nil value.
* A Go interface value is `Iface V`: either untyped nil (no dynamic type), or a
  dynamic type tag together with a concrete payload. A typed-but-nil pointer
  boxed in an interface is `Iface.boxed tag p` with a nil payload: its dynamic
  type is present, so `reflect.TypeOf` is non-nil on it.
* Go `error` values are `GoErr := Option String` (`none` is the nil error).
* `encoding/json` for the payload type is abstracted as a `Codec` record; the
  concrete instances used for witnesses and counterexamples model Go's codec
  for `int` (decimal literal) and `*int` (nil encodes to the null literal).
* For the pointer-based constructors a pointer is an optional address `Ptr`
  into an explicit heap `Heap T`, which lets copy semantics (value read at
  call time) be distinguished from holding the reference itself.
-/

set_option autoImplicit false

/-- Result of running a Go computation that may panic: either a normal value or
a panic carrying its message. -/
inductive PanicOr (α : Type) where
  | panicked (msg : String)
  | ok (v : α)
  deriving DecidableEq, Repr

/-- Go type metadata needed by the embedding: the zero value used by
zero-initialization and by `None`/`Error`, and the test
`reflect.TypeOf(v) == nil` used by the `Some` guard. -/
class GoType (T : Type) where
  zero : T
  typeIsNil : T → Bool

instance : GoType Nat := ⟨0, fun _ => false⟩

instance : GoType Int := ⟨0, fun _ => false⟩

instance : GoType String := ⟨"", fun _ => false⟩

instance : GoType Bool := ⟨false, fun _ => false⟩

/-- A Go interface value: untyped nil (no dynamic type) or a boxed concrete
value with its dynamic type tag. `reflect.TypeOf` is nil exactly on `nil`. -/
inductive Iface (V : Type) where
  | nil
  | boxed (tyTag : String) (v : V)
  deriving DecidableEq, Repr

instance {V : Type} : GoType (Iface V) where
  zero := .nil
  typeIsNil
    | .nil => true
    | .boxed _ _ => false

/-- A Go pointer, modelled as an optional heap address (`none` is the nil
pointer). A pointer type is never an interface, so `typeIsNil` is false even
on the nil pointer. -/
abbrev Ptr : Type := Option Nat

instance : GoType Ptr := ⟨none, fun _ => false⟩

/-- Ambient heap assigning a value of type `T` to every address. -/
abbrev Heap (T : Type) : Type := Nat → T

/-- Reading the heap at an address (dereferencing a non-nil pointer). -/
def deref {T : Type} (h : Heap T) (a : Nat) : T := h a

/-- Writing the heap at an address: models a later mutation of the pointee. -/
def updateHeap {T : Type} (h : Heap T) (a : Nat) (w : T) : Heap T :=
  fun b => if b = a then w else h b

/-- A nil Go error; Go `error` values are modelled as `Option String`. -/
abbrev GoErr : Type := Option String

/-- The Go `error` type is an interface: its zero value is nil and
`reflect.TypeOf` is nil exactly on the nil error. -/
instance : GoType GoErr := ⟨none, fun e => e.isNone⟩

namespace option

/-- The presence container `Option[T]` of package `option`: a value of the
payload type together with the `exists` discriminant (named `GOption` here
because Lean already has an `Option`). -/
structure GOption (T : Type) where
  val : T
  «exists» : Bool
  deriving DecidableEq, Repr

/-- Go `None[T]()`: the absent variant; the payload field is left at the zero
value of `T`, exactly as the Go composite literal does. -/
def None {T : Type} [GoType T] : GOption T :=
  { val := GoType.zero, «exists» := false }

/-- The record literal `Option[T]{val: val, exists: true}` that `Some` builds
after its guard has passed. -/
def mkSome {T : Type} (val : T) : GOption T :=
  { val := val, «exists» := true }

/-- Go `Some[T](val)`: panics when `reflect.TypeOf(val) == nil` (the guard
against an untyped-nil interface value), otherwise the present variant. -/
def Some {T : Type} [GoType T] (val : T) : PanicOr (GOption T) :=
  if GoType.typeIsNil val then
    .panicked "cannot provide a nil value for Some"
  else
    .ok (mkSome val)

/-- A zero-initialized `Option[T]` (`var o Option[T]`): both fields at their
zero values. -/
def zeroValue {T : Type} [GoType T] : GOption T :=
  { val := GoType.zero, «exists» := false }

/-- Go `FromNillable[T](val *T)`: `None` on the nil pointer, otherwise
`Some(*val)` — the pointee is read (copied) at call time. -/
def FromNillable {T : Type} [GoType T] (h : Heap T) : Ptr → PanicOr (GOption T)
  | Option.none => .ok None
  | Option.some a => Some (h a)

/-- Go `PtrFromNillable[T](val *T)`: `None` on the nil pointer, otherwise
`Some[*T](val)` — the container holds the pointer itself, not the pointee. -/
def PtrFromNillable {T : Type} (_h : Heap T) : Ptr → PanicOr (GOption Ptr)
  | Option.none => .ok None
  | Option.some a => Some (Option.some a)

/-- Go `o.IsSome()`. -/
def GOption.IsSome {T : Type} (o : GOption T) : Bool :=
  o.exists

/-- Go `o.IsNone()`. -/
def GOption.IsNone {T : Type} (o : GOption T) : Bool :=
  !o.exists

/-- Go `o.IfSome(fn)`: the consumer call it performs, if any — `some v` means the
consumer is invoked once with `v`, `none` means it is not invoked. -/
def GOption.IfSome {T : Type} (o : GOption T) : Option T :=
  if o.exists then Option.some o.val else Option.none

/-- Go `o.IfNone(fn)`: whether the closure is invoked. -/
def GOption.IfNone {T : Type} (o : GOption T) : Bool :=
  !o.exists

/-- Go `o.Filter(fn)`: `None` when absent; otherwise keeps the value iff the
predicate holds. The kept branch goes through `Some`, hence `PanicOr`. -/
def GOption.Filter {T : Type} [GoType T] (o : GOption T) (fn : T → Bool) :
    PanicOr (GOption T) :=
  if !o.exists then .ok None
  else if fn o.val then Some o.val
  else .ok None

/-- Go `o.Get()`: the value and the presence flag. -/
def GOption.Get {T : Type} (o : GOption T) : T × Bool :=
  (o.val, o.exists)

/-- Go `o.Unwrap()`: the value when present, a panic with a fixed message when
absent. -/
def GOption.Unwrap {T : Type} (o : GOption T) : PanicOr T :=
  if !o.exists then .panicked "cannot unwrap none/nil value"
  else .ok o.val

/-- Go `o.UnwrapOrDefault(defaultVal)`. -/
def GOption.UnwrapOrDefault {T : Type} (o : GOption T) (defaultVal : T) : T :=
  if !o.exists then defaultVal else o.val

/-- Go `o.UnwrapOrElse(fn)` with the `Supplier` modelled as `Unit → T`. -/
def GOption.UnwrapOrElse {T : Type} (o : GOption T) (fn : Unit → T) : T :=
  if !o.exists then fn () else o.val

/-- Go `o.Expect(msg)`: like `Unwrap` but panicking with the caller's message. -/
def GOption.Expect {T : Type} (o : GOption T) (msg : String) : PanicOr T :=
  if !o.exists then .panicked msg
  else .ok o.val

/-- The `encoding/json` behaviour of the payload type `T`: `marshal` produces
the byte string (or an error), `unmarshal` parses one. -/
structure Codec (T : Type) where
  marshal : T → Except String String
  unmarshal : String → Except String T

/-- Go `o.MarshalJSON()`: `json.Marshal(nil)` (the null literal) when absent,
otherwise the payload's own encoding, errors passed through. -/
def GOption.MarshalJSON {T : Type} (c : Codec T) (o : GOption T) :
    Except String String :=
  if !o.exists then .ok "null"
  else
    match c.marshal o.val with
    | .error e => .error e
    | .ok b => .ok b

/-- Go `o.UnmarshalJSON(data)`: on empty input or the null token the receiver is
replaced by `None`; otherwise the payload is decoded — on a decode error the
error is returned and the receiver kept, on success the receiver is replaced
by `Some` of the decoded value. The result pairs the new receiver state with
the returned error. -/
def GOption.UnmarshalJSON {T : Type} [GoType T] (c : Codec T) (o : GOption T)
    (data : String) : PanicOr (GOption T × GoErr) :=
  if data.length = 0 || data = "null" then .ok (None, Option.none)
  else
    match c.unmarshal data with
    | .error e => .ok (o, Option.some e)
    | .ok v =>
      match Some v with
      | .panicked m => .panicked m
      | .ok o2 => .ok (o2, Option.none)

/-- Go `Map(opt, fn)`: `None` stays `None`; a present value is mapped and
rewrapped through `Some`. -/
def Map {T R : Type} [GoType R] (opt : GOption T) (fn : T → R) :
    PanicOr (GOption R) :=
  if !opt.exists then .ok None
  else Some (fn opt.val)

/-- Go `MapOr(opt, fallback, fn)`: the unwrapped fallback when absent, the
unwrapped mapped value when present. -/
def MapOr {T R : Type} (opt : GOption T) (fallback : R) (fn : T → R) : R :=
  if !opt.exists then fallback
  else fn opt.val

/-- Go `FlatMap(opt, fn)`: `None` stays `None`; a present value is handed to the
mapper, whose container is returned as is. -/
def FlatMap {T R : Type} [GoType R] (opt : GOption T) (fn : T → GOption R) :
    GOption R :=
  if !opt.exists then None
  else fn opt.val

/-- Go `FlatMapOr(opt, fallback, fn)`: when absent the fallback is wrapped via
`Some` (which may panic on a nil interface value); when present the mapper's
container is returned as is. -/
def FlatMapOr {T R : Type} [GoType R] (opt : GOption T) (fallback : R)
    (fn : T → GOption R) : PanicOr (GOption R) :=
  if !opt.exists then Some fallback
  else .ok (fn opt.val)

end option

namespace result

/-- The failure container `Result[T]` of package `result`: a success value and
a nullable error discriminant. -/
structure Result (T : Type) where
  val : T
  err : GoErr
  deriving DecidableEq, Repr

/-- Go `From(val, err)`: stores both fields exactly as given. -/
def From {T : Type} (val : T) (err : GoErr) : Result T :=
  { val := val, err := err }

/-- Go `Ok(val)`: the success variant, nil error. -/
def Ok {T : Type} (val : T) : Result T :=
  { val := val, err := Option.none }

/-- Go `Error(err)`: the failure variant, success payload zeroed. -/
def Error {T : Type} [GoType T] (err : GoErr) : Result T :=
  { val := GoType.zero, err := err }

/-- A zero-initialized `Result[T]` (`var r Result[T]`): zero payload and nil
error. -/
def zeroValue {T : Type} [GoType T] : Result T :=
  { val := GoType.zero, err := Option.none }

/-- Go `r.IsOk()`: whether the error field is nil. -/
def Result.IsOk {T : Type} (r : Result T) : Bool :=
  r.err.isNone

/-- Go `r.IsErr()`: whether the error field is non-nil. -/
def Result.IsErr {T : Type} (r : Result T) : Bool :=
  r.err.isSome

/-- Go `r.IfOk(fn)`: the consumer call it performs, if any. -/
def Result.IfOk {T : Type} (r : Result T) : Option T :=
  if r.err.isNone then Option.some r.val else Option.none

/-- Go `r.IfError(fn)`: the error the closure is invoked with, if any. -/
def Result.IfError {T : Type} (r : Result T) : Option GoErr :=
  if r.err.isSome then Option.some r.err else Option.none

/-- Go `r.Ok()`: projects the success side into the presence container. -/
def Result.Ok {T : Type} [GoType T] (r : Result T) :
    PanicOr (option.GOption T) :=
  if r.err.isNone then option.Some r.val
  else .ok option.None

/-- Go `r.Error()`: projects the failure side into the presence container. -/
def Result.Error {T : Type} (r : Result T) : PanicOr (option.GOption GoErr) :=
  if r.err.isSome then option.Some r.err
  else .ok option.None

/-- Go `r.Get()`: the value and the error, panic-free. -/
def Result.Get {T : Type} (r : Result T) : T × GoErr :=
  (r.val, r.err)

/-- Go `r.Unwrap()`: the value when the error is nil, a panic with a fixed
message otherwise. -/
def Result.Unwrap {T : Type} (r : Result T) : PanicOr T :=
  if r.err.isSome then .panicked "cannot unwrap Result when Error"
  else .ok r.val

/-- Go `r.UnwrapOrDefault(defaultVal)`. -/
def Result.UnwrapOrDefault {T : Type} (r : Result T) (defaultVal : T) : T :=
  if r.err.isSome then defaultVal else r.val

/-- Go `r.UnwrapOrElse(fn)` with the `Supplier` modelled as `Unit → T`. -/
def Result.UnwrapOrElse {T : Type} (r : Result T) (fn : Unit → T) : T :=
  if r.err.isSome then fn () else r.val

/-- Go `r.Expect(msg)`: like `Unwrap` but panicking with the caller's message. -/
def Result.Expect {T : Type} (r : Result T) (msg : String) : PanicOr T :=
  if r.err.isSome then .panicked msg
  else .ok r.val

/-- Go `Map(res, fn)`: a failure is rebuilt through `Error` (same error value,
zeroed payload); a success value is mapped and rewrapped through `Ok`. -/
def Map {T R : Type} [GoType R] (res : Result T) (fn : T → R) : Result R :=
  match res.err with
  | Option.some e => Error (Option.some e)
  | Option.none => Ok (fn res.val)

end result

/-- Decimal digit value of a character, if it is one. -/
def digitVal? (c : Char) : Option Nat :=
  if 48 ≤ c.toNat ∧ c.toNat ≤ 57 then Option.some (c.toNat - 48)
  else Option.none

/-- Aux for reading the decimal digits of a number (structural recursion, so
the kernel can evaluate the codecs on concrete strings). -/
def decDigitsAux : List Char → Nat → Option Nat
  | [], acc => Option.some acc
  | c :: cs, acc =>
    match digitVal? c with
    | Option.none => Option.none
    | Option.some d => decDigitsAux cs (10 * acc + d)

/-- Decimal parser behind the model of Go's json number decoding. -/
def parseNat? (s : String) : Option Nat :=
  match s.data with
  | [] => Option.none
  | cs => decDigitsAux cs 0

/-- The `encoding/json` behaviour of Go `int`: a decimal literal. -/
def natCodec : option.Codec Nat where
  marshal n := .ok (toString n)
  unmarshal s :=
    match parseNat? s with
    | Option.some n => .ok n
    | Option.none => .error ("invalid number literal: " ++ s)

/-- A Go `*int` as the JSON codec sees it, flattened to its pointee (`none` is
the nil pointer); container equality over this type is the deep
(`DeepEqual`-style) equality the round-trip property compares with. -/
abbrev PtrNat : Type := Option Nat

/-- The `encoding/json` behaviour of Go `*int`: the nil pointer encodes to the
null literal, a non-nil pointer encodes its pointee; decoding allocates. -/
def ptrNatCodec : option.Codec PtrNat where
  marshal p :=
    match p with
    | Option.none => .ok "null"
    | Option.some n => .ok (toString n)
  unmarshal s :=
    if s = "null" then .ok Option.none
    else
      match parseNat? s with
      | Option.some n => .ok (Option.some n)
      | Option.none => .error ("invalid number literal: " ++ s)

/-- C2, counterexample: the zero-initialized `Result[Nat]` has a nil error
field, so `IsErr()` returns false — not true as the claim states. -/
theorem c2_counterexample : (result.zeroValue : result.Result Nat).IsErr ≠ true := by
  decide

/-- C2 (amended): a zero-initialized `Option[T]` is the absent variant — it
equals `None`, `IsNone` is true, `IsSome` is false, and every accessor treats
it as absent (`Unwrap` panics, `Get` reports absence, the fallback extractors
take the fallback path, `Expect` panics, `IfSome` does not invoke its
consumer). A zero-initialized `Result[T]`, however, is the success variant:
`IsErr` is false, `IsOk` is true, and `Unwrap` returns the zero value rather
than treating it as a failure. -/
theorem c2_zero_init (T U : Type) [GoType T] [GoType U] (d : T) (m : String)
    (f : Unit → T) :
    (option.zeroValue : option.GOption T).IsNone = true
    ∧ (option.zeroValue : option.GOption T).IsSome = false
    ∧ (option.zeroValue : option.GOption T) = option.None
    ∧ (option.zeroValue : option.GOption T).Unwrap
        = PanicOr.panicked "cannot unwrap none/nil value"
    ∧ (option.zeroValue : option.GOption T).Get = (GoType.zero, false)
    ∧ (option.zeroValue : option.GOption T).UnwrapOrDefault d = d
    ∧ (option.zeroValue : option.GOption T).UnwrapOrElse f = f ()
    ∧ (option.zeroValue : option.GOption T).Expect m = PanicOr.panicked m
    ∧ (option.zeroValue : option.GOption T).IfSome = Option.none
    ∧ (result.zeroValue : result.Result U).IsErr = false
    ∧ (result.zeroValue : result.Result U).IsOk = true
    ∧ (result.zeroValue : result.Result U).Unwrap = PanicOr.ok GoType.zero
    ∧ (result.zeroValue : result.Result U).Get = (GoType.zero, Option.none) :=
  ⟨rfl, rfl, rfl, rfl, rfl, rfl, rfl, rfl, rfl, rfl, rfl, rfl, rfl⟩

/-- C4: the `Some` guard is exactly the narrow one. Over an interface type,
`Some v` panics precisely when `v` is the untyped-nil interface value (no
dynamic type) and otherwise wraps `v`; over a pointer type it never panics,
nil pointer included; and a typed-but-nil pointer boxed inside a wider
interface type carries a dynamic type, so it is not caught either. -/
theorem c4_some_nil_guard (V : Type) [DecidableEq V] (v : Iface V) (p : Ptr)
    (tag : String) :
    (option.Some v =
      if v = Iface.nil then
        PanicOr.panicked "cannot provide a nil value for Some"
      else PanicOr.ok (option.mkSome v))
    ∧ option.Some p = PanicOr.ok (option.mkSome p)
    ∧ option.Some (Iface.boxed tag (Option.none : Ptr))
        = PanicOr.ok (option.mkSome (Iface.boxed tag (Option.none : Ptr))) := by
  refine ⟨?_, rfl, rfl⟩
  cases v <;> simp [option.Some, GoType.typeIsNil]

/-- C5: unchecked extraction panics exactly on the inactive variant —
`Option.Unwrap` returns the contained value when the option is present and
panics with its fixed message when absent; `Result.Unwrap` returns the
success value when the error field is nil and panics with its fixed message
when it is non-nil. -/
theorem c5_unwrap_contract (T U : Type) (o : option.GOption T)
    (r : result.Result U) :
    (o.IsSome = true → o.Unwrap = PanicOr.ok o.val)
    ∧ (o.IsNone = true →
        o.Unwrap = PanicOr.panicked "cannot unwrap none/nil value")
    ∧ (r.err = Option.none → r.Unwrap = PanicOr.ok r.val)
    ∧ (∀ e : String, r.err = Option.some e →
        r.Unwrap = PanicOr.panicked "cannot unwrap Result when Error") := by
  refine ⟨?_, ?_, ?_, ?_⟩
  · intro h
    simp [option.GOption.IsSome] at h
    simp [option.GOption.Unwrap, h]
  · intro h
    simp [option.GOption.IsNone] at h
    simp [option.GOption.Unwrap, h]
  · intro h
    simp [result.Result.Unwrap, h]
  · intro e h
    simp [result.Result.Unwrap, h]

/-- C5, witness: `Unwrap` evaluated on a present and an absent option and on a
success and a failure result. -/
theorem c5_unwrap_contract_witness :
    (option.mkSome (5 : Nat)).Unwrap = PanicOr.ok 5
    ∧ (option.None : option.GOption Nat).Unwrap
        = PanicOr.panicked "cannot unwrap none/nil value"
    ∧ (result.Ok (7 : Nat)).Unwrap = PanicOr.ok 7
    ∧ (result.Error (Option.some "boom") : result.Result Nat).Unwrap
        = PanicOr.panicked "cannot unwrap Result when Error" :=
  ⟨(c5_unwrap_contract Nat Nat (option.mkSome 5) (result.Ok 7)).1 rfl,
   (c5_unwrap_contract Nat Nat option.None (result.Ok 7)).2.1 rfl,
   (c5_unwrap_contract Nat Nat option.None (result.Ok 7)).2.2.1 rfl,
   (c5_unwrap_contract Nat Nat option.None
      (result.Error (Option.some "boom"))).2.2.2 "boom" rfl⟩

/-- C9: on an absent input, `FlatMapOr` routes the fallback through the `Some`
constructor, so an untyped-nil interface fallback makes it panic with the
`Some` guard's message instead of returning a container. -/
theorem c9_flatmapor_nil_fallback_panics
    (f : Nat → option.GOption (Iface Nat)) :
    option.FlatMapOr (option.None : option.GOption Nat)
        (Iface.nil : Iface Nat) f
      = PanicOr.panicked "cannot provide a nil value for Some" := rfl

/-- C3, counterexample: with an untyped-nil interface fallback, `FlatMapOr` on
an absent option panics in the `Some` guard instead of returning the wrapped
fallback `Some(fallback)` that the claim promises for every fallback. -/
theorem c3_counterexample :
    option.FlatMapOr (option.None : option.GOption Nat)
        (Iface.nil : Iface Nat) (fun _ => option.None)
      = PanicOr.panicked "cannot provide a nil value for Some"
    ∧ option.FlatMapOr (option.None : option.GOption Nat)
        (Iface.nil : Iface Nat) (fun _ => option.None)
      ≠ PanicOr.ok (option.mkSome (Iface.nil : Iface Nat)) := by
  refine ⟨rfl, ?_⟩
  decide

/-- C3 (amended): for every fallback that is not an untyped-nil interface
value, `FlatMapOr(None, fallback, f)` returns the wrapped present container
`Some(fallback)` (on an untyped-nil interface fallback it panics instead, via
the `Some` guard), whereas `MapOr(None, fallback, g)` returns the fallback
itself unwrapped for every fallback; on a present input `Some(v)`, `FlatMapOr`
returns `f(v)` exactly as `f` produced it and `MapOr` returns `g(v)`
unwrapped. -/
theorem c3_fallback_asymmetry (T R : Type) [GoType T] [GoType R]
    (fallback : R) (v : T)
    (f : T → option.GOption R) (g : T → R) :
    (GoType.typeIsNil fallback = false →
        option.FlatMapOr (option.None : option.GOption T) fallback f
          = PanicOr.ok (option.mkSome fallback))
    ∧ option.MapOr (option.None : option.GOption T) fallback g = fallback
    ∧ option.FlatMapOr (option.mkSome v) fallback f = PanicOr.ok (f v)
    ∧ option.MapOr (option.mkSome v) fallback g = g v := by
  refine ⟨?_, rfl, rfl, rfl⟩
  intro hnil
  simp [option.FlatMapOr, option.None, option.Some, hnil]

/-- C3, witness: the four branches evaluated at `fallback = 7`, `v = 3`,
`f = (fun n => Some (2 * n))`, `g = (fun n => 2 * n)`. -/
theorem c3_fallback_asymmetry_witness :
    option.FlatMapOr (option.None : option.GOption Nat) 7
        (fun n => option.mkSome (2 * n))
      = PanicOr.ok (option.mkSome 7)
    ∧ option.MapOr (option.None : option.GOption Nat) 7 (fun n => 2 * n) = 7
    ∧ option.FlatMapOr (option.mkSome 3) 7 (fun n => option.mkSome (2 * n))
      = PanicOr.ok (option.mkSome 6)
    ∧ option.MapOr (option.mkSome 3) 7 (fun n => 2 * n) = 6 :=
  ⟨(c3_fallback_asymmetry Nat Nat 7 3 (fun n => option.mkSome (2 * n))
      (fun n => 2 * n)).1 rfl,
   (c3_fallback_asymmetry Nat Nat 7 3 (fun n => option.mkSome (2 * n))
      (fun n => 2 * n)).2.1,
   (c3_fallback_asymmetry Nat Nat 7 3 (fun n => option.mkSome (2 * n))
      (fun n => 2 * n)).2.2.1,
   (c3_fallback_asymmetry Nat Nat 7 3 (fun n => option.mkSome (2 * n))
      (fun n => 2 * n)).2.2.2⟩

/-- C6: the failure-container `Map` passes a failure through untouched — the
output is the failure variant carrying exactly the same error value with the
success payload reset to the zero value — and maps a success value `v` to the
success variant holding `f v`. -/
theorem c6_result_map (T R : Type) [GoType R] (r : result.Result T)
    (f : T → R) :
    (∀ e : String, r.err = Option.some e →
        result.Map r f
          = { val := GoType.zero, err := Option.some e : result.Result R })
    ∧ (r.err = Option.none →
        result.Map r f = { val := f r.val, err := Option.none }) := by
  constructor
  · intro e h
    simp [result.Map, h, result.Error]
  · intro h
    simp [result.Map, h, result.Ok]

/-- C6, witness: mapping over a failure built by the raw constructor (whose
payload 9 is then zeroed) and over a success. -/
theorem c6_result_map_witness :
    result.Map (result.From (9 : Nat) (Option.some "bad")) (fun n => n + 1)
      = { val := 0, err := Option.some "bad" }
    ∧ result.Map (result.Ok (3 : Nat)) (fun n => n + 1)
      = { val := 4, err := Option.none } :=
  ⟨(c6_result_map Nat Nat (result.From 9 (Option.some "bad"))
      (fun n => n + 1)).1 "bad" rfl,
   (c6_result_map Nat Nat (result.Ok 3) (fun n => n + 1)).2 rfl⟩

/-- C8: `Filter` returns the absent variant on an absent receiver; on a
present receiver it keeps the value (rewrapped through `Some`) exactly when
the predicate holds and returns the absent variant otherwise. The hypothesis
is the representation invariant of the container — a present option built
through the package API never holds an untyped-nil interface value, since the
fields are unexported and `Some` guards construction — under which the kept
branch's `Some` cannot panic. The receiver is a value, and `Filter` is a pure
function on it, so the receiver is never mutated and a new container is
returned. -/
theorem c8_filter (T : Type) [GoType T] (o : option.GOption T) (p : T → Bool)
    (hwf : o.exists = true → GoType.typeIsNil o.val = false) :
    (o.IsNone = true → o.Filter p = PanicOr.ok option.None)
    ∧ (o.exists = true → p o.val = true →
        o.Filter p = PanicOr.ok (option.mkSome o.val))
    ∧ (o.exists = true → p o.val = false →
        o.Filter p = PanicOr.ok option.None) := by
  refine ⟨?_, ?_, ?_⟩
  · intro h
    simp [option.GOption.IsNone] at h
    simp [option.GOption.Filter, h]
  · intro h hp
    simp [option.GOption.Filter, h, hp, option.Some, hwf h]
  · intro h hp
    simp [option.GOption.Filter, h, hp]

/-- C8, witness: filtering an even number (kept), an odd number (dropped) and
an absent option (stays absent) with the evenness predicate. -/
theorem c8_filter_witness :
    (option.mkSome (4 : Nat)).Filter (fun n => n % 2 == 0)
      = PanicOr.ok (option.mkSome 4)
    ∧ (option.mkSome (3 : Nat)).Filter (fun n => n % 2 == 0)
      = PanicOr.ok option.None
    ∧ (option.None : option.GOption Nat).Filter (fun n => n % 2 == 0)
      = PanicOr.ok option.None :=
  ⟨(c8_filter Nat (option.mkSome 4) (fun n => n % 2 == 0)
      (fun _ => rfl)).2.1 rfl rfl,
   (c8_filter Nat (option.mkSome 3) (fun n => n % 2 == 0)
      (fun _ => rfl)).2.2 rfl rfl,
   (c8_filter Nat option.None (fun n => n % 2 == 0)
      (fun _ => rfl)).1 rfl⟩

/-- C7, counterexample: a non-nil pointer to an untyped-nil interface value
(Go: `var e error; FromNillable(&e)`) makes `FromNillable` panic in the `Some`
guard instead of yielding the present variant holding a copy of the referenced
value, as the claim promises for every non-null reference. -/
theorem c7_counterexample :
    option.FromNillable (fun _ => Iface.nil : Heap (Iface Nat))
        (Option.some 0)
      = PanicOr.panicked "cannot provide a nil value for Some"
    ∧ option.FromNillable (fun _ => Iface.nil : Heap (Iface Nat))
        (Option.some 0)
      ≠ PanicOr.ok (option.mkSome (Iface.nil : Iface Nat)) := by
  refine ⟨rfl, ?_⟩
  decide

/-- C7 (amended): `FromNillable(ref)` yields the absent variant when `ref` is
null and otherwise — provided the referenced value is not an untyped-nil
interface value, in which case it panics via the `Some` guard — the present
variant holding a copy of the value the reference points to at call time
(`Unwrap` then returns that captured value, which a later write through the
heap does not change); `PtrFromNillable(ref)` yields absent when `ref` is null
and otherwise the present variant holding the reference itself without
copying, so a later read through the stored address observes the updated
heap. -/
theorem c7_from_nillable (T : Type) [GoType T] (h : Heap T) (a : Nat) (w : T) :
    option.FromNillable h Option.none = PanicOr.ok option.None
    ∧ option.PtrFromNillable h Option.none = PanicOr.ok option.None
    ∧ (GoType.typeIsNil (h a) = false →
        option.FromNillable h (Option.some a)
          = PanicOr.ok (option.mkSome (h a)))
    ∧ option.PtrFromNillable h (Option.some a)
        = PanicOr.ok (option.mkSome (Option.some a))
    ∧ (option.mkSome (h a)).Unwrap = PanicOr.ok (h a)
    ∧ deref (updateHeap h a w) a = w := by
  refine ⟨rfl, rfl, ?_, rfl, rfl, ?_⟩
  · intro hnil
    simp [option.FromNillable, option.Some, hnil]
  · simp [deref, updateHeap]

/-- C7, witness: a heap holding 3 everywhere, the pointer to address 0, and a
later write of 9 to that address. -/
theorem c7_from_nillable_witness :
    option.FromNillable (fun _ => 3 : Heap Nat) Option.none
      = PanicOr.ok option.None
    ∧ option.PtrFromNillable (fun _ => 3 : Heap Nat) Option.none
      = PanicOr.ok option.None
    ∧ option.FromNillable (fun _ => 3 : Heap Nat) (Option.some 0)
      = PanicOr.ok (option.mkSome 3)
    ∧ option.PtrFromNillable (fun _ => 3 : Heap Nat) (Option.some 0)
      = PanicOr.ok (option.mkSome (Option.some 0))
    ∧ (option.mkSome (3 : Nat)).Unwrap = PanicOr.ok 3
    ∧ deref (updateHeap (fun _ => 3 : Heap Nat) 0 9) 0 = 9 :=
  ⟨(c7_from_nillable Nat (fun _ => 3) 0 9).1,
   (c7_from_nillable Nat (fun _ => 3) 0 9).2.1,
   (c7_from_nillable Nat (fun _ => 3) 0 9).2.2.1 rfl,
   (c7_from_nillable Nat (fun _ => 3) 0 9).2.2.2.1,
   (c7_from_nillable Nat (fun _ => 3) 0 9).2.2.2.2.1,
   (c7_from_nillable Nat (fun _ => 3) 0 9).2.2.2.2.2⟩

/-- C10: the decode path of `UnmarshalJSON` is atomic on failure — for input
that is non-empty, not the null token, and on which the payload decoder fails,
the call returns exactly the decode error and leaves the receiver unchanged. -/
theorem c10_unmarshal_atomic (T : Type) [GoType T] (c : option.Codec T)
    (o : option.GOption T) (data : String) (e : String)
    (hlen : data.length ≠ 0) (hnull : data ≠ "null")
    (herr : c.unmarshal data = Except.error e) :
    o.UnmarshalJSON c data = PanicOr.ok (o, Option.some e) := by
  simp [option.GOption.UnmarshalJSON, hlen, hnull, herr]

/-- C10, witness: decoding the non-numeric input `"x"` with the `int` codec
fails; the receiver `Some(1)` is returned unchanged together with the decode
error. -/
theorem c10_unmarshal_atomic_witness :
    natCodec.unmarshal "x" = Except.error "invalid number literal: x"
    ∧ (option.mkSome (1 : Nat)).UnmarshalJSON natCodec "x"
      = PanicOr.ok (option.mkSome 1, Option.some "invalid number literal: x") :=
  ⟨rfl,
   c10_unmarshal_atomic Nat natCodec (option.mkSome 1) "x"
     "invalid number literal: x" (by decide) (by decide) rfl⟩

/-- C1, counterexample: a nil `*int` is structurally encodable (its payload
codec round-trips it through the null literal), `Some` accepts it (a typed nil
pointer passes the guard), but the container round trip collapses it to
`None`: `Some(nil)` marshals to the null token, which unmarshals to `None`, a
container different from `Some(nil)`. -/
theorem c1_counterexample :
    ptrNatCodec.marshal Option.none = Except.ok "null"
    ∧ ptrNatCodec.unmarshal "null" = Except.ok Option.none
    ∧ option.Some (Option.none : PtrNat)
        = PanicOr.ok (option.mkSome (Option.none : PtrNat))
    ∧ (option.mkSome (Option.none : PtrNat)).MarshalJSON ptrNatCodec
        = Except.ok "null"
    ∧ (option.mkSome (Option.none : PtrNat)).UnmarshalJSON ptrNatCodec "null"
        = PanicOr.ok ((option.None : option.GOption PtrNat), Option.none)
    ∧ (option.None : option.GOption PtrNat)
        ≠ option.mkSome (Option.none : PtrNat) := by
  refine ⟨rfl, rfl, rfl, rfl, rfl, ?_⟩
  decide

/-- C1 (amended): encoding `None` yields the null literal; decoding empty
input or the null token yields `None`; and for every structurally-encodable
value `v` whose encoding is non-empty and is not itself the null token (a nil
pointer, for instance, encodes to the null token and decodes back to `None`
instead), encoding `Some(v)` and decoding the bytes yields a container equal
to `Some(v)`. -/
theorem c1_json_roundtrip (T : Type) [GoType T] (c : option.Codec T)
    (o o1 o2 : option.GOption T) (v : T) (s : String)
    (hm : c.marshal v = Except.ok s) (hu : c.unmarshal s = Except.ok v)
    (hnull : s ≠ "null") (hlen : s.length ≠ 0)
    (hnil : GoType.typeIsNil v = false) :
    (option.None : option.GOption T).MarshalJSON c = Except.ok "null"
    ∧ o1.UnmarshalJSON c "" = PanicOr.ok (option.None, Option.none)
    ∧ o2.UnmarshalJSON c "null" = PanicOr.ok (option.None, Option.none)
    ∧ option.Some v = PanicOr.ok (option.mkSome v)
    ∧ (option.mkSome v).MarshalJSON c = Except.ok s
    ∧ o.UnmarshalJSON c s = PanicOr.ok (option.mkSome v, Option.none) := by
  refine ⟨rfl, rfl, rfl, ?_, ?_, ?_⟩
  · simp [option.Some, hnil]
  · simp [option.GOption.MarshalJSON, option.mkSome, hm]
  · simp [option.GOption.UnmarshalJSON, hlen, hnull, hu, option.Some, hnil,
      option.mkSome]

/-- C1, witness: the round trip evaluated with the `int` codec at `v = 5`,
whose encoding is the token `"5"`. -/
theorem c1_json_roundtrip_witness :
    natCodec.marshal 5 = Except.ok "5"
    ∧ natCodec.unmarshal "5" = Except.ok 5
    ∧ ((option.None : option.GOption Nat).MarshalJSON natCodec
        = Except.ok "null"
      ∧ (option.None : option.GOption Nat).UnmarshalJSON natCodec ""
        = PanicOr.ok (option.None, Option.none)
      ∧ (option.None : option.GOption Nat).UnmarshalJSON natCodec "null"
        = PanicOr.ok (option.None, Option.none)
      ∧ option.Some (5 : Nat) = PanicOr.ok (option.mkSome 5)
      ∧ (option.mkSome (5 : Nat)).MarshalJSON natCodec = Except.ok "5"
      ∧ (option.None : option.GOption Nat).UnmarshalJSON natCodec "5"
        = PanicOr.ok (option.mkSome 5, Option.none)) :=
  ⟨rfl, rfl,
   c1_json_roundtrip Nat natCodec option.None option.None option.None 5 "5"
     rfl rfl (by decide) (by decide) rfl⟩
